import Mathlib

/-!
Shallow embedding of `src/actions/admin.js` (MediMeet admin operations).

The file under verification is a set of six request handlers over a
relational store (Prisma) and an identity provider (Clerk `auth()`).
We embed the store as an explicit `DB` state record, the ambient request
environment (caller identity, injected store faults, clock) as `Env`, and
each handler as a pure function `Env → DB → ... → Except String α × DB`
(readers drop the state component).  `Except.error s` models a thrown
JavaScript `Error` with message `s`; `Except.ok` models a normal return.

The Prisma schema itself is not under `src/`.  The entity fields are
modelled from the spec (section 3 DATA MODEL); the name of the Payout's
owning-provider relation is taken from the only names the source queries
use for it: `lawyer` (the `include`/`select` clauses in
`getPendingPayouts` and `approvePayout`).  Because the source of
`approvePayout` also reads properties `doctor` / `doctorId` that do not
exist on the fetched object, property access on the fetched payout is
modelled with JavaScript semantics: a missing property reads as
`undefined`, and reading a property of `undefined` throws a `TypeError`.

Source string literals containing an apostrophe (the contraction in
"lawyer doesn't have enough credits...", and the quoted property name in
the engine's TypeError message) are transcribed without the apostrophe;
nothing in the development depends on those exact characters.
-/

/-- A user row, fields per spec section 3 (identity-provider subject id,
role, verification status, credit balance, display name, email,
specialty) plus the creation timestamp used by `orderBy: createdAt`. -/
structure User where
  id : String
  clerkUserId : String
  role : String
  verificationStatus : String
  credits : Int
  name : String
  email : String
  specialty : String
  createdAt : Nat
deriving Repr, DecidableEq

/-- A payout row: id, owning provider (foreign key `lawyerId`, the
relation name used by the source's `include` clauses), requested credit
amount (field `credits`, as read by `payout.credits` in the source),
status, creation timestamp, processed timestamp and processing admin. -/
structure Payout where
  id : String
  lawyerId : String
  credits : Int
  status : String
  createdAt : Nat
  processedAt : Option Nat
  processedBy : Option String
deriving Repr, DecidableEq

/-- An append-only credit-ledger row (`creditTransaction.create`). -/
structure CreditTransaction where
  userId : String
  amount : Int
  type : String
deriving Repr, DecidableEq

/-- The relational store visible to `src/actions/admin.js`. -/
structure DB where
  users : List User
  payouts : List Payout
  creditTransactions : List CreditTransaction
deriving Repr, DecidableEq

/-- Ambient request environment: the Clerk identity (`auth()` returns
`{ userId }`, `none` when signed out), injected store faults (each flag
makes the corresponding Prisma call throw, modelling a store failure),
and the clock used for `new Date()`. -/
structure Env where
  authUserId : Option String
  userLookupFails : Bool
  userFindManyFails : Bool
  payoutFindManyFails : Bool
  payoutLookupFails : Bool
  userUpdateFails : Bool
  txPayoutUpdateFails : Bool
  txUserUpdateFails : Bool
  txCreateFails : Bool
  now : Nat
deriving Repr, DecidableEq

/-- Form data passed to the mutating handlers: an association list of
string fields.  `formGet` is `formData.get(k)`: the value when the field
is present, otherwise JavaScript `null` (here `none`). -/
def FormData := List (String × String)

/-- FormData.get: first value bound to the key, or null. -/
def formGet (fd : FormData) (k : String) : Option String :=
  (fd.find? (fun p => p.1 == k)).map (fun p => p.2)

/-- JavaScript truthiness of a string-or-null value: `null` and the
empty string are falsy (`!lawyerId` in the source). -/
def strTruthy : Option String → Bool
  | none => false
  | some s => s ≠ ""

/-- Prisma `db.user.findUnique({ where: { clerkUserId } })`, fallible. -/
def dbUserFindUniqueByClerkId (env : Env) (db : DB) (cid : String) :
    Except String (Option User) :=
  if env.userLookupFails then Except.error "store failure"
  else Except.ok (db.users.find? (fun u => u.clerkUserId == cid))

/-- Embedding of `verifyAdmin` (src/actions/admin.js lines 10 to 29):
resolve `auth()`; return false when there is no identity; look the user
up by Clerk id inside a try/catch that swallows store failures and
returns false; otherwise return `user?.role === "ADMIN"`. -/
def verifyAdmin (env : Env) (db : DB) : Except String Bool :=
  match env.authUserId with
  | none => Except.ok false
  | some uid =>
    match dbUserFindUniqueByClerkId env db uid with
    | Except.ok u? =>
      Except.ok (match u? with
        | some u => u.role == "ADMIN"
        | none => false)
    | Except.error _ => Except.ok false

/-- The boolean the gated handlers bind (`const isAdmin = await
verifyAdmin()`); the fallback branch is unreachable (see C5). -/
def verifyAdminB (env : Env) (db : DB) : Bool :=
  match verifyAdmin env db with
  | Except.ok b => b
  | Except.error _ => false

/-- Success payload vs structured error value of `getVerifiedLawyers`:
it returns either `{ lawyers: [...] }` or `{ error: "..." }`. -/
inductive LawyersResult where
  | lawyers (l : List User)
  | errObj (msg : String)
deriving Repr, DecidableEq

/-- Embedding of `getPendingDoctors` (lines 34 to 53): admin gate, then
`db.user.findMany` filtered to role LAWYER and verification status
PENDING, ordered by `createdAt` descending; a store failure is caught
and re-raised as the generic error "Failed to fetch pending lawyers". -/
def getPendingDoctors (env : Env) (db : DB) : Except String (List User) :=
  if verifyAdminB env db = false then Except.error "Unauthorized"
  else if env.userFindManyFails then Except.error "Failed to fetch pending lawyers"
  else
    Except.ok ((db.users.filter
      (fun u => u.role == "LAWYER" && u.verificationStatus == "PENDING")).mergeSort
      (fun a b => b.createdAt ≤ a.createdAt))

/-- Embedding of `getVerifiedLawyers` (lines 58 to 78): admin gate, then
`db.user.findMany` filtered to role LAWYER and status VERIFIED, ordered
by name ascending; a store failure is caught and turned into the
structured value `{ error: "Failed to fetch verified lawyers" }` —
it is returned, not raised. -/
def getVerifiedLawyers (env : Env) (db : DB) : Except String LawyersResult :=
  if verifyAdminB env db = false then Except.error "Unauthorized"
  else if env.userFindManyFails then
    Except.ok (LawyersResult.errObj "Failed to fetch verified lawyers")
  else
    Except.ok (LawyersResult.lawyers ((db.users.filter
      (fun u => u.role == "LAWYER" && u.verificationStatus == "VERIFIED")).mergeSort
      (fun a b => a.name ≤ b.name)))

/-- Prisma `db.user.update({ where: { id }, data: { verificationStatus } })`:
fails on an injected store fault or when no row has that id (Prisma
throws "Record to update not found."); otherwise rewrites the row. -/
def dbUserUpdateStatus (env : Env) (db : DB) (uid st : String) :
    Except String DB :=
  if env.userUpdateFails then Except.error "store failure"
  else if db.users.any (fun u => u.id == uid) then
    Except.ok { db with users := (db.users.map
      (fun u => if u.id == uid then { u with verificationStatus := st } else u)) }
  else Except.error "Record to update not found."

/-- The membership test `["VERIFIED", "REJECTED"].includes(status)`
applied to a string-or-null form value. -/
def statusAllowed (st : Option String) : Bool :=
  st == some "VERIFIED" || st == some "REJECTED"

/-- Embedding of `updateLawyerStatus` (lines 83 to 110): admin gate; read
`lawyerId` and `status` from the form; if `!lawyerId` or the status is
not in {VERIFIED, REJECTED}, throw "Invalid input" before touching the
store; otherwise update the row, signal `revalidatePath("/admin")`
(external, not modelled) and return `{ success: true }` (`Except.ok ()`);
a store failure is caught and re-raised wrapped. -/
def updateLawyerStatus (env : Env) (db : DB) (fd : FormData) :
    Except String Unit × DB :=
  if verifyAdminB env db = false then (Except.error "Unauthorized", db)
  else
    let lawyerId := formGet fd "lawyerId"
    let status := formGet fd "status"
    if strTruthy lawyerId = false || statusAllowed status = false then
      (Except.error "Invalid input", db)
    else
      match dbUserUpdateStatus env db (lawyerId.getD "") (status.getD "") with
      | Except.ok db2 => (Except.ok (), db2)
      | Except.error e =>
        (Except.error ("Failed to update lawyer status: " ++ e), db)

/-- Embedding of `updateLawyerActiveStatus` (lines 115 to 144): admin
gate; `suspend` is the strict comparison `formData.get("suspend") ===
"true"`; if `!lawyerId`, throw "LAWYER ID is required"; otherwise update
the row's verification status to PENDING when suspend else VERIFIED,
signal revalidation and return `{ success: true }`; store failures are
caught and re-raised wrapped. -/
def updateLawyerActiveStatus (env : Env) (db : DB) (fd : FormData) :
    Except String Unit × DB :=
  if verifyAdminB env db = false then (Except.error "Unauthorized", db)
  else
    let lawyerId := formGet fd "lawyerId"
    let suspend := formGet fd "suspend" == some "true"
    if strTruthy lawyerId = false then
      (Except.error "LAWYER ID is required", db)
    else
      let status := if suspend then "PENDING" else "VERIFIED"
      match dbUserUpdateStatus env db (lawyerId.getD "") status with
      | Except.ok db2 => (Except.ok (), db2)
      | Except.error e =>
        (Except.error ("Failed to update lawyer status: " ++ e), db)

/-- The provider projection selected by `getPendingPayouts`
(`select: { id, name, email, specialty, credits }`). -/
structure LawyerProjection where
  id : String
  name : String
  email : String
  specialty : String
  credits : Int
deriving Repr, DecidableEq

/-- Embedding of `getPendingPayouts` (lines 149 to 179): admin gate, then
`db.payout.findMany` filtered to status PROCESSING, each row joined with
the owning provider's projection (`include: { lawyer: select ... }`),
ordered by `createdAt` descending; a store failure is caught and
re-raised as the generic error. -/
def getPendingPayouts (env : Env) (db : DB) :
    Except String (List (Payout × Option LawyerProjection)) :=
  if verifyAdminB env db = false then Except.error "Unauthorized"
  else if env.payoutFindManyFails then
    Except.error "Failed to fetch pending payouts"
  else
    Except.ok (((db.payouts.filter (fun p => p.status == "PROCESSING")).mergeSort
      (fun a b => b.createdAt ≤ a.createdAt)).map
      (fun p => (p, (db.users.find? (fun u => u.id == p.lawyerId)).map
        (fun u => LawyerProjection.mk u.id u.name u.email u.specialty u.credits))))

/-- The object returned by `db.payout.findUnique({ where: { id, status:
"PROCESSING" }, include: { lawyer: true } })`: the payout row plus the
included `lawyer` relation (null if the referenced row is absent). -/
structure FetchedPayout where
  payout : Payout
  lawyer : Option User
deriving Repr, DecidableEq

/-- JavaScript values the approval code manipulates: `undefined`,
`null`, numbers, strings, and a fetched user object. -/
inductive JsVal where
  | undef
  | jnull
  | num (n : Int)
  | str (s : String)
  | usr (u : User)
deriving Repr, DecidableEq

/-- JavaScript property access on the fetched payout object.  Its
properties are exactly the payout columns plus the included relation
field `lawyer`; any other name — in particular `doctor` and `doctorId`,
which the source reads — yields `undefined`. -/
def FetchedPayout.prop (fp : FetchedPayout) (k : String) : JsVal :=
  if k == "id" then JsVal.str fp.payout.id
  else if k == "lawyerId" then JsVal.str fp.payout.lawyerId
  else if k == "credits" then JsVal.num fp.payout.credits
  else if k == "status" then JsVal.str fp.payout.status
  else if k == "createdAt" then JsVal.num (Int.ofNat fp.payout.createdAt)
  else if k == "lawyer" then
    (match fp.lawyer with
     | some u => JsVal.usr u
     | none => JsVal.jnull)
  else JsVal.undef

/-- JavaScript property access on a general value: reading a property of
`undefined` or `null` throws a TypeError; on a user object it reads the
column (or `undefined`); on primitives it yields `undefined`. -/
def JsVal.prop (v : JsVal) (k : String) : Except String JsVal :=
  match v with
  | JsVal.undef =>
    Except.error ("TypeError: Cannot read properties of undefined (reading " ++ k ++ ")")
  | JsVal.jnull =>
    Except.error ("TypeError: Cannot read properties of null (reading " ++ k ++ ")")
  | JsVal.usr u =>
    Except.ok (if k == "id" then JsVal.str u.id
      else if k == "clerkUserId" then JsVal.str u.clerkUserId
      else if k == "role" then JsVal.str u.role
      else if k == "verificationStatus" then JsVal.str u.verificationStatus
      else if k == "credits" then JsVal.num u.credits
      else if k == "name" then JsVal.str u.name
      else JsVal.undef)
  | JsVal.num _ => Except.ok JsVal.undef
  | JsVal.str _ => Except.ok JsVal.undef

/-- JavaScript `<` on the values compared by the approval code: a
numeric comparison when both sides are numbers; any comparison involving
`undefined` is NaN-tainted and evaluates to false. -/
def jsLt : JsVal → JsVal → Bool
  | JsVal.num a, JsVal.num b => a < b
  | _, _ => false

/-- Prisma `db.payout.findUnique({ where: { id, status: "PROCESSING" },
include: { lawyer: true } })`: the unique payout with that id, filtered
to status PROCESSING, with the owning provider joined in. -/
def dbPayoutFindUniqueProcessing (env : Env) (db : DB) (pid : String) :
    Except String (Option FetchedPayout) :=
  if env.payoutLookupFails then Except.error "store failure"
  else
    Except.ok ((db.payouts.find?
      (fun p => p.id == pid && p.status == "PROCESSING")).map
      (fun p => FetchedPayout.mk p (db.users.find? (fun u => u.id == p.lawyerId))))

/-- The `db.$transaction(async (tx) => ...)` body of `approvePayout`
(lines 222 to 255), run all-or-nothing: the three statements execute in
order against the transaction state; if any fails, the whole transaction
rolls back (the caller keeps the pre-transaction `DB`).
Statement 1: `tx.payout.update` sets status PROCESSED, `processedAt` to
now and `processedBy` to the admin attribution.
Statement 2: `tx.user.update({ where: { id: payout.doctorId }, data: {
credits: { decrement: payout.credits } } })` — the where-id is the
`doctorId` property of the fetched payout, a JavaScript value; Prisma
rejects a non-string unique where argument.
Statement 3: `tx.creditTransaction.create` with `userId: payout.doctorId`,
`amount: -payout.credits`, `type: "ADMIN_ADJUSTMENT"`; Prisma rejects a
non-string required `userId`. -/
def approvePayoutTx (env : Env) (db : DB) (pid : String)
    (fp : FetchedPayout) (processedBy : String) : Except String DB := do
  let db1 ←
    if env.txPayoutUpdateFails then Except.error "store failure"
    else if db.payouts.any (fun p => p.id == pid) then
      Except.ok { db with payouts := (db.payouts.map
        (fun (p : Payout) => if p.id == pid then
          { p with status := "PROCESSED",
                   processedAt := some env.now,
                   processedBy := some processedBy } else p)) }
    else Except.error "Record to update not found."
  let db2 ←
    if env.txUserUpdateFails then Except.error "store failure"
    else
      match fp.prop "doctorId" with
      | JsVal.str uid =>
        if db1.users.any (fun u => u.id == uid) then
          Except.ok { db1 with users := (db1.users.map
            (fun (u : User) => if u.id == uid then
              { u with credits := u.credits - fp.payout.credits } else u)) }
        else Except.error "Record to update not found."
      | _ =>
        Except.error "Invalid value provided. Expected String, provided Object."
  let db3 ←
    if env.txCreateFails then Except.error "store failure"
    else
      match fp.prop "doctorId" with
      | JsVal.str uid =>
        Except.ok { db2 with creditTransactions :=
          db2.creditTransactions ++
            [CreditTransaction.mk uid (-fp.payout.credits) "ADMIN_ADJUSTMENT"] }
      | _ =>
        Except.error "Invalid value provided. Expected String, provided Object."
  pure db3

/-- The body of the `try` block of `approvePayout` (lines 194 to 258):
re-resolve the admin record for attribution; fetch the payout by id
filtered to status PROCESSING with the owning provider included; throw
"Payout request not found or already processed" when absent; evaluate
`payout.doctor.credits < payout.credits` (a TypeError in JavaScript,
since the fetched object has no `doctor` property); on insufficient
funds throw; otherwise run the transaction.  Returns the post-state. -/
def approvePayoutTry (env : Env) (db : DB) (pid : String) :
    Except String DB := do
  let adminRec ←
    match env.authUserId with
    | some uid => dbUserFindUniqueByClerkId env db uid
    | none =>
      Except.error "Invalid value provided. Expected String, provided Object."
  let processedBy :=
    match adminRec with
    | some a => if a.id == "" then "unknown" else a.id
    | none => "unknown"
  let payout? ← dbPayoutFindUniqueProcessing env db pid
  match payout? with
  | none => Except.error "Payout request not found or already processed"
  | some fp => do
    let doctorCredits ← JsVal.prop (fp.prop "doctor") "credits"
    if jsLt doctorCredits (fp.prop "credits") then
      Except.error "lawyer doesnt have enough credits for this payout"
    else
      approvePayoutTx env db pid fp processedBy

/-- Embedding of `approvePayout` (lines 184 to 263): admin gate; read
`payoutId` from the form and throw "Payout ID is required" when falsy;
run the try block; any error thrown inside it is caught, logged and
re-raised as "Failed to approve payout: " followed by the original
message, leaving the store untouched; on success signal revalidation and
return `{ success: true }`. -/
def approvePayout (env : Env) (db : DB) (fd : FormData) :
    Except String Unit × DB :=
  if verifyAdminB env db = false then (Except.error "Unauthorized", db)
  else
    let payoutId := formGet fd "payoutId"
    if strTruthy payoutId = false then
      (Except.error "Payout ID is required", db)
    else
      match approvePayoutTry env db (payoutId.getD "") with
      | Except.ok db2 => (Except.ok (), db2)
      | Except.error e =>
        (Except.error ("Failed to approve payout: " ++ e), db)

/-- Sample admin row used by concrete scenarios. -/
def adminA : User :=
  { id := "admin-1", clerkUserId := "clerk-admin", role := "ADMIN",
    verificationStatus := "VERIFIED", credits := 0, name := "Alice",
    email := "alice@example.com", specialty := "", createdAt := 0 }

/-- Sample provider row (role LAWYER, credits 100), spec section 8
scenarios. -/
def lawyerD : User :=
  { id := "lawyer-1", clerkUserId := "clerk-lawyer", role := "LAWYER",
    verificationStatus := "VERIFIED", credits := 100, name := "Dana",
    email := "dana@example.com", specialty := "tax", createdAt := 1 }

/-- Sample PROCESSING payout owned by `lawyerD` with the given requested
amount. -/
def payoutP (amt : Int) : Payout :=
  { id := "payout-1", lawyerId := "lawyer-1", credits := amt,
    status := "PROCESSING", createdAt := 2, processedAt := none,
    processedBy := none }

/-- Store for the spec section 8 scenarios: admin, provider with 100
credits, one PROCESSING payout of the given amount, empty ledger. -/
def dbScenario (amt : Int) : DB :=
  { users := [adminA, lawyerD], payouts := [payoutP amt],
    creditTransactions := [] }

/-- Environment of an authenticated admin with a healthy store. -/
def envAdmin : Env :=
  { authUserId := some "clerk-admin", userLookupFails := false,
    userFindManyFails := false, payoutFindManyFails := false,
    payoutLookupFails := false, userUpdateFails := false,
    txPayoutUpdateFails := false, txUserUpdateFails := false,
    txCreateFails := false, now := 7 }

/-- Environment of a signed-out caller. -/
def envNoAuth : Env :=
  { authUserId := none, userLookupFails := false,
    userFindManyFails := false, payoutFindManyFails := false,
    payoutLookupFails := false, userUpdateFails := false,
    txPayoutUpdateFails := false, txUserUpdateFails := false,
    txCreateFails := false, now := 7 }

/-- Empty store. -/
def dbEmpty : DB := { users := [], payouts := [], creditTransactions := [] }

/-- Admin environment in which the balance-decrement transaction step is
made to fail. -/
def envTxFail : Env := { envAdmin with txUserUpdateFails := true }

/-- Admin environment in which `db.user.findMany` fails. -/
def envStoreDown : Env := { envAdmin with userFindManyFails := true }

/-- verifyAdmin never throws: it always returns the boolean that the
gated handlers read. -/
lemma verifyAdmin_eq_ok (env : Env) (db : DB) :
    verifyAdmin env db = Except.ok (verifyAdminB env db) := by
  obtain ⟨ua, ul, f3, f4, f5, f6, f7, f8, f9, n⟩ := env
  unfold verifyAdminB verifyAdmin dbUserFindUniqueByClerkId
  cases ua with
  | none => rfl
  | some uid => cases ul <;> rfl

/-- A true admin gate pins down the environment: the identity is
present, the lookup did not fail, and it found an ADMIN row. -/
lemma verifyAdminB_true_elim (env : Env) (db : DB)
    (h : verifyAdminB env db = true) :
    env.userLookupFails = false ∧
    ∃ uid u, env.authUserId = some uid ∧
      db.users.find? (fun v => v.clerkUserId == uid) = some u ∧
      u.role = "ADMIN" := by
  obtain ⟨ua, ul, f3, f4, f5, f6, f7, f8, f9, n⟩ := env
  unfold verifyAdminB verifyAdmin dbUserFindUniqueByClerkId at h
  cases ua with
  | none => simp at h
  | some uid =>
    cases ul with
    | true => simp at h
    | false =>
      simp only at h ⊢
      cases hu : db.users.find? (fun v => v.clerkUserId == uid) with
      | none => rw [hu] at h; simp at h
      | some u =>
        rw [hu] at h
        exact ⟨by trivial, uid, u, by trivial, hu, by simpa using h⟩

/-- The fetched payout object has no `doctor` property. -/
lemma fetchedPayout_prop_doctor (fp : FetchedPayout) :
    fp.prop "doctor" = JsVal.undef := rfl

/-- The try block of `approvePayout` always throws: every path either
fails earlier, or reaches the read of `payout.doctor.credits`, which is
a TypeError because the fetched object's relation field is `lawyer`. -/
lemma approvePayoutTry_errs (env : Env) (db : DB) (pid : String) :
    ∃ e, approvePayoutTry env db pid = Except.error e := by
  unfold approvePayoutTry
  cases ha : env.authUserId with
  | none => exact ⟨_, rfl⟩
  | some uid =>
    simp only [bind, Except.bind]
    cases hl : dbUserFindUniqueByClerkId env db uid with
    | error e => exact ⟨_, rfl⟩
    | ok adminRec =>
      cases hp : dbPayoutFindUniqueProcessing env db pid with
      | error e => exact ⟨_, rfl⟩
      | ok payout? =>
        cases payout? with
        | none => exact ⟨_, rfl⟩
        | some fp => exact ⟨_, rfl⟩

/-- approvePayout never mutates the store: every run returns the store
it was given (the success branch of the try block is unreachable). -/
lemma approvePayout_state_unchanged (env : Env) (db : DB) (fd : FormData) :
    (approvePayout env db fd).2 = db := by
  unfold approvePayout
  split
  · rfl
  · dsimp only
    split
    · rfl
    · obtain ⟨e, he⟩ := approvePayoutTry_errs env db ((formGet fd "payoutId").getD "")
      rw [he]

/-- Rewriting verification statuses does not change who the admin is:
the gate reads only `clerkUserId` and `role`, which the rewrite keeps. -/
lemma verifyAdminB_statusMap (env : Env) (db : DB) (k st : String) :
    verifyAdminB env { db with users := (db.users.map
      (fun u => if u.id == k then { u with verificationStatus := st } else u)) } =
    verifyAdminB env db := by
  obtain ⟨ua, ul, f3, f4, f5, f6, f7, f8, f9, n⟩ := env
  unfold verifyAdminB verifyAdmin dbUserFindUniqueByClerkId
  cases ua with
  | none => rfl
  | some uid =>
    cases ul with
    | true => rfl
    | false =>
      simp only
      rw [List.find?_map]
      have hp : ((fun v : User => v.clerkUserId == uid) ∘
          (fun u : User => if u.id == k then { u with verificationStatus := st } else u)) =
          (fun v : User => v.clerkUserId == uid) := by
        funext u
        by_cases h : u.id = k <;> simp [h]
      rw [hp]
      cases hf : db.users.find? (fun v : User => v.clerkUserId == uid) with
      | none => rfl
      | some u => by_cases h : u.id = k <;> simp [h]

/-- Rewriting verification statuses keeps ids, hence keeps the
`any (id == k2)` existence check used by `db.user.update`. -/
lemma any_statusMap (l : List User) (k st k2 : String) :
    (l.map (fun u => if u.id == k then { u with verificationStatus := st } else u)).any
      (fun u => u.id == k2) = l.any (fun u => u.id == k2) := by
  rw [List.any_map]
  congr 1
  funext u
  by_cases h : u.id = k <;> simp [h]

/-- After the status rewrite, every row with the targeted id carries the
new status. -/
lemma mem_statusMap (l : List User) (k st : String) (u : User)
    (hu : u ∈ l.map (fun v => if v.id == k then { v with verificationStatus := st } else v))
    (hk : u.id = k) : u.verificationStatus = st := by
  rw [List.mem_map] at hu
  obtain ⟨v, hv, he⟩ := hu
  by_cases h : v.id == k
  · rw [← he]; simp [h]
  · rw [if_neg (by simpa using h)] at he
    subst he
    exact absurd hk (by simpa using h)

/-- Behaviour of `updateLawyerStatus` on valid input against a healthy
store: it rewrites the targeted row's verification status and reports
success. -/
lemma updateLawyerStatus_ok (env : Env) (db : DB) (fd : FormData) (k st : String)
    (hAdmin : verifyAdminB env db = true)
    (hId : formGet fd "lawyerId" = some k) (hk : k ≠ "")
    (hSt : formGet fd "status" = some st)
    (hAllowed : statusAllowed (some st) = true)
    (hFault : env.userUpdateFails = false)
    (hEx : db.users.any (fun u => u.id == k) = true) :
    updateLawyerStatus env db fd =
      (Except.ok (), { db with users := (db.users.map
        (fun u => if u.id == k then { u with verificationStatus := st } else u)) }) := by
  unfold updateLawyerStatus dbUserUpdateStatus
  simp [hAdmin, hId, hSt, hk, hAllowed, hFault, hEx, strTruthy]

/-- Behaviour of `updateLawyerStatus` on invalid input: it throws
"Invalid input" and leaves the store untouched. -/
lemma updateLawyerStatus_invalid (env : Env) (db : DB) (fd : FormData)
    (hAdmin : verifyAdminB env db = true)
    (hBad : strTruthy (formGet fd "lawyerId") = false ∨
      statusAllowed (formGet fd "status") = false) :
    updateLawyerStatus env db fd = (Except.error "Invalid input", db) := by
  unfold updateLawyerStatus
  rcases hBad with hb | hb <;> simp [hAdmin, hb]

/-- Behaviour of `updateLawyerActiveStatus` with the id present against
a healthy store: the targeted row's status becomes PENDING exactly when
the `suspend` field is the string "true", else VERIFIED. -/
lemma updateLawyerActiveStatus_ok (env : Env) (db : DB) (fd : FormData) (k : String)
    (hAdmin : verifyAdminB env db = true)
    (hId : formGet fd "lawyerId" = some k) (hk : k ≠ "")
    (hFault : env.userUpdateFails = false)
    (hEx : db.users.any (fun u => u.id == k) = true) :
    updateLawyerActiveStatus env db fd =
      (Except.ok (), { db with users := (db.users.map
        (fun u => if u.id == k then
          { u with verificationStatus :=
              (if formGet fd "suspend" == some "true" then "PENDING" else "VERIFIED") }
          else u)) }) := by
  cases hs : (formGet fd "suspend" == some "true") with
  | true =>
    unfold updateLawyerActiveStatus dbUserUpdateStatus
    simp [hAdmin, hId, hs, hk, hFault, hEx, strTruthy]
  | false =>
    unfold updateLawyerActiveStatus dbUserUpdateStatus
    simp [hAdmin, hId, hs, hk, hFault, hEx, strTruthy]

/-- C1: the spec scenario — an admin approves the PROCESSING payout of
50 credits owned by a provider holding 100 credits.  The claim states
the call returns success, marks the payout PROCESSED, decrements the
balance by 50 and appends one ADMIN_ADJUSTMENT ledger row.  The code
instead throws (wrapped as "Failed to approve payout: ..."): after
fetching the payout with its `lawyer` relation it reads
`payout.doctor.credits`, and the fetched object has no `doctor`
property, so the read is a TypeError; the store is left unchanged. -/
theorem C1_approvePayout_scenario_throws :
    approvePayout envAdmin (dbScenario 50) [("payoutId", "payout-1")] =
      (Except.error "Failed to approve payout: TypeError: Cannot read properties of undefined (reading credits)",
       dbScenario 50) := rfl

/-- C2: approvePayout is all-or-nothing.  Under an injected failure of
the balance-decrement or ledger-insert transaction step, the call does
not succeed and the store is exactly the one passed in: the payout's
status (still PROCESSING), the provider's balance and the ledger are all
unchanged — no partial state is observable. -/
theorem C2_approvePayout_atomic (env : Env) (db : DB) (fd : FormData)
    (h : env.txUserUpdateFails = true ∨ env.txCreateFails = true) :
    (approvePayout env db fd).1.isOk = false ∧
    (approvePayout env db fd).2 = db := by
  refine ⟨?_, approvePayout_state_unchanged env db fd⟩
  unfold approvePayout
  split
  · rfl
  · dsimp only
    split
    · rfl
    · obtain ⟨e, he⟩ := approvePayoutTry_errs env db ((formGet fd "payoutId").getD "")
      rw [he]
      rfl

/-- C2 witness: concrete run with the balance-decrement step failing. -/
theorem C2_witness :
    (envTxFail.txUserUpdateFails = true ∨ envTxFail.txCreateFails = true) ∧
    ((approvePayout envTxFail (dbScenario 50) [("payoutId", "payout-1")]).1.isOk = false ∧
     (approvePayout envTxFail (dbScenario 50) [("payoutId", "payout-1")]).2 = dbScenario 50) :=
  ⟨Or.inl rfl,
   C2_approvePayout_atomic envTxFail (dbScenario 50) [("payoutId", "payout-1")] (Or.inl rfl)⟩

/-- C3: the insufficient-funds scenario — payout of 150 requested
against a balance of 100.  The claim states the call fails with the
insufficient-funds error.  The call does fail with no mutation, but with
the wrapped TypeError from reading `payout.doctor.credits`; the
insufficient-funds comparison on line 217 is never reached, so the
specified error is never produced. -/
theorem C3_insufficient_scenario_throws_typeerror :
    approvePayout envAdmin (dbScenario 150) [("payoutId", "payout-1")] =
      (Except.error "Failed to approve payout: TypeError: Cannot read properties of undefined (reading credits)",
       dbScenario 150) := rfl

/-- C4: for an admin call whose payout id does not name a payout whose
status is PROCESSING (wrong id, or a payout already processed), the call
fails with the wrapped "Payout request not found or already processed"
error and the store is unchanged. -/
theorem C4_not_found_or_processed (env : Env) (db : DB) (fd : FormData) (pid : String)
    (hAdmin : verifyAdminB env db = true)
    (hpid : formGet fd "payoutId" = some pid) (hne : pid ≠ "")
    (hLookup : env.payoutLookupFails = false)
    (hAbsent : db.payouts.find? (fun p => p.id == pid && p.status == "PROCESSING") = none) :
    approvePayout env db fd =
      (Except.error "Failed to approve payout: Payout request not found or already processed",
       db) := by
  obtain ⟨hul, uid, u, hua, hfind, hrole⟩ := verifyAdminB_true_elim env db hAdmin
  have htry : approvePayoutTry env db pid =
      Except.error "Payout request not found or already processed" := by
    unfold approvePayoutTry dbUserFindUniqueByClerkId dbPayoutFindUniqueProcessing
    rw [hua]
    simp [hul, hLookup, hAbsent, bind, Except.bind]
  unfold approvePayout
  simp [hAdmin, hpid, hne, strTruthy, htry]

/-- C4 witness: an id that names no payout at all. -/
theorem C4_witness :
    verifyAdminB envAdmin (dbScenario 50) = true ∧
    approvePayout envAdmin (dbScenario 50) [("payoutId", "missing")] =
      (Except.error "Failed to approve payout: Payout request not found or already processed",
       dbScenario 50) :=
  ⟨rfl, C4_not_found_or_processed envAdmin (dbScenario 50) [("payoutId", "missing")]
    "missing" rfl rfl (by decide) rfl rfl⟩

/-- C5: verifyAdmin never raises — it always returns the boolean the
gates read — and that boolean is true exactly when the caller identity
is present, the lookup succeeded, and the resolved User row has role
ADMIN; it is false on missing identity, missing user, or lookup
failure. -/
theorem C5_verifyAdmin_never_raises_iff_admin (env : Env) (db : DB) :
    verifyAdmin env db = Except.ok (verifyAdminB env db) ∧
    (verifyAdminB env db = true ↔
      (env.userLookupFails = false ∧ ∃ uid u, env.authUserId = some uid ∧
        db.users.find? (fun v => v.clerkUserId == uid) = some u ∧
        u.role = "ADMIN")) := by
  refine ⟨verifyAdmin_eq_ok env db, ?_, ?_⟩
  · intro h
    exact verifyAdminB_true_elim env db h
  · rintro ⟨hul, uid, u, hua, hfind, hrole⟩
    unfold verifyAdminB verifyAdmin dbUserFindUniqueByClerkId
    rw [hua]
    simp [hul, hfind, hrole]

/-- C6: for a non-admin caller every gated handler throws "Unauthorized"
immediately, and the mutating handlers return the store they were given
untouched. -/
theorem C6_nonadmin_unauthorized (env : Env) (db : DB)
    (fd1 fd2 fd3 : FormData)
    (h : verifyAdminB env db = false) :
    getPendingDoctors env db = Except.error "Unauthorized" ∧
    getVerifiedLawyers env db = Except.error "Unauthorized" ∧
    updateLawyerStatus env db fd1 = (Except.error "Unauthorized", db) ∧
    updateLawyerActiveStatus env db fd2 = (Except.error "Unauthorized", db) ∧
    getPendingPayouts env db = Except.error "Unauthorized" ∧
    approvePayout env db fd3 = (Except.error "Unauthorized", db) := by
  unfold getPendingDoctors getVerifiedLawyers updateLawyerStatus
    updateLawyerActiveStatus getPendingPayouts approvePayout
  simp [h]

/-- C6 witness: a signed-out caller against the sample store. -/
theorem C6_witness :
    verifyAdminB envNoAuth (dbScenario 50) = false ∧
    (getPendingDoctors envNoAuth (dbScenario 50) = Except.error "Unauthorized" ∧
     getVerifiedLawyers envNoAuth (dbScenario 50) = Except.error "Unauthorized" ∧
     updateLawyerStatus envNoAuth (dbScenario 50) [] = (Except.error "Unauthorized", dbScenario 50) ∧
     updateLawyerActiveStatus envNoAuth (dbScenario 50) [] = (Except.error "Unauthorized", dbScenario 50) ∧
     getPendingPayouts envNoAuth (dbScenario 50) = Except.error "Unauthorized" ∧
     approvePayout envNoAuth (dbScenario 50) [] = (Except.error "Unauthorized", dbScenario 50)) :=
  ⟨rfl, C6_nonadmin_unauthorized envNoAuth (dbScenario 50) [] [] [] rfl⟩

/-- C7: updateLawyerActiveStatus maps `suspend="true"` to verification
status PENDING and `suspend="false"` to VERIFIED, and the round trip —
suspend, then un-suspend — leaves the targeted provider VERIFIED. -/
theorem C7_suspend_roundtrip (env : Env) (db : DB) (fd1 fd2 : FormData) (k : String)
    (hAdmin : verifyAdminB env db = true)
    (hFault : env.userUpdateFails = false) (hk : k ≠ "")
    (hId1 : formGet fd1 "lawyerId" = some k) (hS1 : formGet fd1 "suspend" = some "true")
    (hId2 : formGet fd2 "lawyerId" = some k) (hS2 : formGet fd2 "suspend" = some "false")
    (hEx : db.users.any (fun u => u.id == k) = true) :
    (updateLawyerActiveStatus env db fd1).1 = Except.ok () ∧
    (∀ u ∈ (updateLawyerActiveStatus env db fd1).2.users,
      u.id = k → u.verificationStatus = "PENDING") ∧
    (updateLawyerActiveStatus env (updateLawyerActiveStatus env db fd1).2 fd2).1 =
      Except.ok () ∧
    (∀ u ∈ (updateLawyerActiveStatus env (updateLawyerActiveStatus env db fd1).2 fd2).2.users,
      u.id = k → u.verificationStatus = "VERIFIED") := by
  have h1 := updateLawyerActiveStatus_ok env db fd1 k hAdmin hId1 hk hFault hEx
  rw [hS1] at h1
  simp only [show ((some "true" == some "true") = true) from rfl, if_true] at h1
  rw [h1]
  refine ⟨rfl, fun u hu hid => mem_statusMap db.users k "PENDING" u hu hid, ?_⟩
  have hAdmin2 : verifyAdminB env { db with users := (db.users.map
      (fun u => if u.id == k then { u with verificationStatus := "PENDING" } else u)) } = true := by
    rw [verifyAdminB_statusMap env db k "PENDING"]
    exact hAdmin
  have hEx2 : (db.users.map
      (fun u => if u.id == k then { u with verificationStatus := "PENDING" } else u)).any
      (fun u => u.id == k) = true := by
    rw [any_statusMap db.users k "PENDING" k]
    exact hEx
  have h2 := updateLawyerActiveStatus_ok env _ fd2 k hAdmin2 hId2 hk hFault hEx2
  rw [hS2] at h2
  simp only [show ((some "false" == some "true") = false) from rfl, if_false] at h2
  rw [h2]
  exact ⟨rfl, fun u hu hid => mem_statusMap _ k "VERIFIED" u hu hid⟩

/-- C7 witness: suspend then un-suspend the sample provider. -/
theorem C7_witness :
    verifyAdminB envAdmin (dbScenario 50) = true ∧
    ((updateLawyerActiveStatus envAdmin (dbScenario 50)
        [("lawyerId", "lawyer-1"), ("suspend", "true")]).1 = Except.ok () ∧
     (∀ u ∈ (updateLawyerActiveStatus envAdmin (dbScenario 50)
        [("lawyerId", "lawyer-1"), ("suspend", "true")]).2.users,
        u.id = "lawyer-1" → u.verificationStatus = "PENDING") ∧
     (updateLawyerActiveStatus envAdmin
        (updateLawyerActiveStatus envAdmin (dbScenario 50)
          [("lawyerId", "lawyer-1"), ("suspend", "true")]).2
        [("lawyerId", "lawyer-1"), ("suspend", "false")]).1 = Except.ok () ∧
     (∀ u ∈ (updateLawyerActiveStatus envAdmin
        (updateLawyerActiveStatus envAdmin (dbScenario 50)
          [("lawyerId", "lawyer-1"), ("suspend", "true")]).2
        [("lawyerId", "lawyer-1"), ("suspend", "false")]).2.users,
        u.id = "lawyer-1" → u.verificationStatus = "VERIFIED")) :=
  ⟨rfl, C7_suspend_roundtrip envAdmin (dbScenario 50)
    [("lawyerId", "lawyer-1"), ("suspend", "true")]
    [("lawyerId", "lawyer-1"), ("suspend", "false")]
    "lawyer-1" rfl rfl (by decide) rfl rfl rfl rfl rfl⟩

/-- C8: updateLawyerStatus throws "Invalid input" before any store
write when the lawyer id is falsy or the status is outside
{VERIFIED, REJECTED}, leaving the store unchanged; on valid input
against a healthy store it reports success and the targeted provider
carries the given status. -/
theorem C8_updateLawyerStatus_validation (env : Env) (db : DB) (fd : FormData)
    (hAdmin : verifyAdminB env db = true) :
    ((strTruthy (formGet fd "lawyerId") = false ∨
        statusAllowed (formGet fd "status") = false) →
      updateLawyerStatus env db fd = (Except.error "Invalid input", db)) ∧
    (∀ k st, formGet fd "lawyerId" = some k → k ≠ "" →
      formGet fd "status" = some st → statusAllowed (some st) = true →
      env.userUpdateFails = false → db.users.any (fun u => u.id == k) = true →
      (updateLawyerStatus env db fd).1 = Except.ok () ∧
      ∀ u ∈ (updateLawyerStatus env db fd).2.users,
        u.id = k → u.verificationStatus = st) := by
  constructor
  · intro hBad
    exact updateLawyerStatus_invalid env db fd hAdmin hBad
  · intro k st hId hk hSt hAllowed hFault hEx
    have h := updateLawyerStatus_ok env db fd k st hAdmin hId hk hSt hAllowed hFault hEx
    rw [h]
    exact ⟨rfl, fun u hu hid => mem_statusMap db.users k st u hu hid⟩

/-- C8 witness: a status outside the allowed set is rejected without
mutation. -/
theorem C8_witness :
    verifyAdminB envAdmin (dbScenario 50) = true ∧
    updateLawyerStatus envAdmin (dbScenario 50)
      [("lawyerId", "lawyer-1"), ("status", "PENDING")] =
      (Except.error "Invalid input", dbScenario 50) :=
  ⟨rfl, (C8_updateLawyerStatus_validation envAdmin (dbScenario 50)
    [("lawyerId", "lawyer-1"), ("status", "PENDING")] rfl).1 (Or.inr rfl)⟩

/-- C9: on a healthy store both listings return exactly the matching
record set; on a store failure getPendingDoctors throws the generic
error while getVerifiedLawyers returns the structured error value
instead of raising. -/
theorem C9_listing_error_asymmetry (env : Env) (db : DB)
    (hAdmin : verifyAdminB env db = true) :
    (env.userFindManyFails = false →
      (∃ l, getPendingDoctors env db = Except.ok l ∧
        ∀ u, u ∈ l ↔ (u ∈ db.users ∧ u.role = "LAWYER" ∧
          u.verificationStatus = "PENDING")) ∧
      (∃ l, getVerifiedLawyers env db = Except.ok (LawyersResult.lawyers l) ∧
        ∀ u, u ∈ l ↔ (u ∈ db.users ∧ u.role = "LAWYER" ∧
          u.verificationStatus = "VERIFIED"))) ∧
    (env.userFindManyFails = true →
      getPendingDoctors env db = Except.error "Failed to fetch pending lawyers" ∧
      getVerifiedLawyers env db =
        Except.ok (LawyersResult.errObj "Failed to fetch verified lawyers")) := by
  constructor
  · intro hOk
    constructor
    · refine ⟨(db.users.filter
        (fun u => u.role == "LAWYER" && u.verificationStatus == "PENDING")).mergeSort
        (fun a b => b.createdAt ≤ a.createdAt), ?_, ?_⟩
      · unfold getPendingDoctors
        simp [hAdmin, hOk]
      · intro u
        rw [List.mem_mergeSort, List.mem_filter]
        simp [and_assoc]
    · refine ⟨(db.users.filter
        (fun u => u.role == "LAWYER" && u.verificationStatus == "VERIFIED")).mergeSort
        (fun a b => a.name ≤ b.name), ?_, ?_⟩
      · unfold getVerifiedLawyers
        simp [hAdmin, hOk]
      · intro u
        rw [List.mem_mergeSort, List.mem_filter]
        simp [and_assoc]
  · intro hDown
    unfold getPendingDoctors getVerifiedLawyers
    simp [hAdmin, hDown]

/-- C9 witness: concrete store failure exhibiting the asymmetry. -/
theorem C9_witness :
    verifyAdminB envStoreDown (dbScenario 50) = true ∧
    (getPendingDoctors envStoreDown (dbScenario 50) =
        Except.error "Failed to fetch pending lawyers" ∧
     getVerifiedLawyers envStoreDown (dbScenario 50) =
        Except.ok (LawyersResult.errObj "Failed to fetch verified lawyers")) :=
  ⟨rfl, (C9_listing_error_asymmetry envStoreDown (dbScenario 50) rfl).2 rfl⟩

/-- C10: with the lawyer id present, any `suspend` form value other than
the exact string "true" — absent field included — takes the un-suspend
branch and sets the provider's verification status to VERIFIED. -/
theorem C10_nontrue_suspend_unsuspends (env : Env) (db : DB) (fd : FormData)
    (k : String)
    (hAdmin : verifyAdminB env db = true)
    (hId : formGet fd "lawyerId" = some k) (hk : k ≠ "")
    (hS : formGet fd "suspend" ≠ some "true")
    (hFault : env.userUpdateFails = false)
    (hEx : db.users.any (fun u => u.id == k) = true) :
    (updateLawyerActiveStatus env db fd).1 = Except.ok () ∧
    ∀ u ∈ (updateLawyerActiveStatus env db fd).2.users,
      u.id = k → u.verificationStatus = "VERIFIED" := by
  have h := updateLawyerActiveStatus_ok env db fd k hAdmin hId hk hFault hEx
  have hb : (formGet fd "suspend" == some "true") = false := by
    cases hbb : (formGet fd "suspend" == some "true") with
    | false => rfl
    | true => exact absurd (eq_of_beq hbb) hS
  rw [hb] at h
  simp only [Bool.false_eq_true, if_false] at h
  rw [h]
  exact ⟨rfl, fun u hu hid => mem_statusMap db.users k "VERIFIED" u hu hid⟩

/-- C10 witness: the `suspend` field is absent entirely; the provider
ends up VERIFIED. -/
theorem C10_witness :
    verifyAdminB envAdmin (dbScenario 50) = true ∧
    formGet [("lawyerId", "lawyer-1")] "suspend" ≠ some "true" ∧
    ((updateLawyerActiveStatus envAdmin (dbScenario 50) [("lawyerId", "lawyer-1")]).1 =
        Except.ok () ∧
     ∀ u ∈ (updateLawyerActiveStatus envAdmin (dbScenario 50)
        [("lawyerId", "lawyer-1")]).2.users,
       u.id = "lawyer-1" → u.verificationStatus = "VERIFIED") :=
  ⟨rfl, by decide,
   C10_nontrue_suspend_unsuspends envAdmin (dbScenario 50) [("lawyerId", "lawyer-1")]
     "lawyer-1" rfl rfl (by decide) (by decide) rfl rfl⟩
